import Mathlib

/-!
# Verification of the signal-scraper core

Shallow embedding of the extraction / normalization / history / diff pipeline
of the repository (src/scraper.py, src/db.py, src/main.py).

Conventions of the embedding:
* Python floats are modelled as exact rationals (`ℚ`); SQLite INTEGER as `ℤ`,
  timestamps as `ℤ`.
* Python `None` is `Option.none`; a fallible operation returns `Except String`
  where the `error` value names the Python exception raised.
* The `signal_history` table is a `List Row`; SQL queries are translated to
  filters and maximum selection over that list.
* `re.search` calls are translated pattern-by-pattern into executable
  leftmost-match functions on `List Char` (the backtracking of each concrete
  pattern is resolved statically; each function documents its pattern).
-/

/-! ## Value normalizer: `_num` (src/scraper.py lines 94-110) -/

/-- The ASCII whitespace characters recognised by Python's `str.strip()` and
by the regex class `\s`. -/
def pyWs (c : Char) : Bool :=
  c = ' ' || c = '\t' || c = '\n' || c = '\r' || c = Char.ofNat 11 || c = Char.ofNat 12

/-- Python `text.strip()`: drop leading and trailing whitespace. -/
def pyStrip (l : List Char) : List Char :=
  ((l.dropWhile pyWs).reverse.dropWhile pyWs).reverse

/-- Decimal value of a list of digit characters (as read left to right). -/
def digitsToNat (l : List Char) : Nat :=
  l.foldl (fun a c => 10 * a + (c.toNat - 48)) 0

/-- One anchored attempt of the regex fragment `\d*\.?\d+` at the head of `l`,
with Python's greedy-plus-backtracking semantics resolved: the match is the
maximal digit run, extended by `.` plus a second maximal digit run when that
run is nonempty; bare digits survive a trailing lone `.`; a lone `.` with no
digits on either side fails. Returns the matched characters. -/
def matchCore (l : List Char) : Option (List Char) :=
  let ds := l.takeWhile Char.isDigit
  let rest := l.dropWhile Char.isDigit
  if rest.head? = some '.' then
    let fs := rest.tail.takeWhile Char.isDigit
    if fs.isEmpty then (if ds.isEmpty then none else some ds)
    else some (ds ++ '.' :: fs)
  else if ds.isEmpty then none else some ds

/-- One anchored attempt of `[-+]?\d*\.?\d+` at the head of `l`. A leading
sign is consumed greedily; if the rest then fails, the attempt fails (a sign
character can never begin a signless match). -/
def matchAt (l : List Char) : Option (List Char) :=
  match l with
  | [] => none
  | c :: r => if c = '-' || c = '+' then (matchCore r).map (fun m => c :: m)
              else matchCore (c :: r)

/-- `re.search(r"[-+]?\d*\.?\d+", s)`: the leftmost match, scanning start
positions left to right. -/
def reSearchNum : List Char → Option (List Char)
  | [] => none
  | c :: r =>
    match matchAt (c :: r) with
    | some m => some m
    | none => reSearchNum r

/-- Value of an unsigned matched numeral `digits ('.' digits)?` as an exact
rational (Python's `float()` rounds to the nearest double; the embedding keeps
the exact value). -/
def parseUnsigned (l : List Char) : ℚ :=
  let ip := l.takeWhile Char.isDigit
  let rest := l.dropWhile Char.isDigit
  if rest.head? = some '.' then
    let fp := rest.tail.takeWhile Char.isDigit
    (digitsToNat ip : ℚ) + (digitsToNat fp : ℚ) / (10 : ℚ) ^ fp.length
  else (digitsToNat ip : ℚ)

/-- Value of a matched numeral with optional sign. On the shapes produced by
`reSearchNum`, Python's `float()` always succeeds, so the source's
`except ValueError` branch is dead and the embedding is total. -/
def parseFloat (l : List Char) : ℚ :=
  match l with
  | '-' :: r => -parseUnsigned r
  | '+' :: r => parseUnsigned r
  | _ => parseUnsigned l

/-- `s.replace(",", "").replace(" ", "")`: remove every comma and space. -/
def stripSeparators (l : List Char) : List Char :=
  l.filter (fun c => !(c = ',' || c = ' '))

/-- Search for the first numeral and parse it:
`m = re.search(r"[-+]?\d*\.?\d+", s)` followed by `float(m.group(0))`. -/
def extractNum (l : List Char) : Option ℚ :=
  (reSearchNum l).map parseFloat

/-- `_num` (src/scraper.py lines 94-110): strip, detect full parenthesis
wrapping (remembered as `neg` and applied at the end as a negation of the
extracted value: `return -num if neg else num`), remove separators, search,
parse. Returns `none` for `None` input or when no numeral occurs. -/
def _num (text : Option String) : Option ℚ :=
  match text with
  | none => none
  | some t =>
    let s0 := pyStrip t.toList
    if s0.head? = some '(' ∧ s0.getLast? = some ')' then
      (extractNum (stripSeparators ((s0.drop 1).dropLast))).map (fun q => -q)
    else
      extractNum (stripSeparators s0)

/-! ## Duration normalizer (src/scraper.py lines 143-156) -/

/-- The alternation `(second|minute|hour|day|week|month)`: the first
alternative (in the pattern's order) that is a literal prefix of `l`. -/
def matchUnit (l : List Char) : Option String :=
  if "second".toList.isPrefixOf l then some "second"
  else if "minute".toList.isPrefixOf l then some "minute"
  else if "hour".toList.isPrefixOf l then some "hour"
  else if "day".toList.isPrefixOf l then some "day"
  else if "week".toList.isPrefixOf l then some "week"
  else if "month".toList.isPrefixOf l then some "month"
  else none

/-- One anchored attempt of `(\d+)\s+(second|minute|hour|day|week|month)`:
a nonempty maximal digit run, a nonempty maximal whitespace run, then a unit
word. (Backtracking into either greedy run can never succeed for this
pattern, so maximal runs are faithful.) -/
def matchDurAt (l : List Char) : Option (Nat × String) :=
  let d := l.takeWhile Char.isDigit
  if d.isEmpty then none
  else
    let rest := l.dropWhile Char.isDigit
    let w := rest.takeWhile pyWs
    if w.isEmpty then none
    else (matchUnit (rest.dropWhile pyWs)).map (fun u => (digitsToNat d, u))

/-- `re.search(r"(\d+)\s+(second|minute|hour|day|week|month)", s)`: leftmost
match, returning `(int(m.group(1)), m.group(2))`. -/
def reSearchDur : List Char → Option (Nat × String)
  | [] => none
  | c :: r =>
    match matchDurAt (c :: r) with
    | some m => some m
    | none => reSearchDur r

/-- The `mult` dictionary of src/scraper.py lines 148-155. The regex only ever
produces the six listed units, so the fallback branch is unreachable. -/
def unitMult (u : String) : ℚ :=
  if u = "second" then 1 / 60
  else if u = "minute" then 1
  else if u = "hour" then 60
  else if u = "day" then 60 * 24
  else if u = "week" then 60 * 24 * 7
  else 60 * 24 * 30

/-- Python `int()` on a float: truncation toward zero. -/
def pyInt (q : ℚ) : ℤ :=
  if 0 ≤ q then ⌊q⌋ else -⌊-q⌋

/-- The latest-trade duration computation of src/scraper.py lines 144-156,
applied to the text of the "Latest trade:" value:
search `(\d+)\s+(unit)`, then `latest_trade = int(num * mult)`. -/
def normalizeDuration (t : String) : Option ℤ :=
  match reSearchDur t.toList with
  | none => none
  | some (n, u) => some (pyInt ((n : ℚ) * unitMult u))

/-! ## Snapshot builder: `scrape` (src/scraper.py lines 112-175) -/

/-- `re.search(r"(\d{4})", s)`: the leftmost run of four consecutive digits,
as a number. -/
def reSearchYear : List Char → Option Nat
  | c1 :: c2 :: c3 :: c4 :: rest =>
      if c1.isDigit && c2.isDigit && c3.isDigit && c4.isDigit then
        some (digitsToNat [c1, c2, c3, c4])
      else reSearchYear (c2 :: c3 :: c4 :: rest)
  | _ => none

/-- Abstraction of the parsed HTML page. `listInfo l` / `dataCols l` is the
text of the value container `by_label(l)` / `stats_label(l)` finds (the
`div.s-list-info__value` / `div.s-data-columns__value` next to the matching
label `div`), or `none` when the label is absent or it has no paired value
container — the cases where those helpers return Python `None`. `title` is
the text of the `h1.title-min` element when present. -/
structure Doc where
  title : Option String
  listInfo : String → Option String
  dataCols : String → Option String

/-- The dictionary `scrape` returns (src/scraper.py lines 163-175), which is
also exactly the row shape of the `signal_history` table. -/
structure Snapshot where
  ts : ℤ
  name : Option String
  growth : Option ℚ
  weeks : Option ℤ
  drawdown : Option ℚ
  monthly_growth : Option ℚ
  start_year : Option ℤ
  latest_trade : Option ℤ
  trades : Option ℤ
  profit_trades : Option ℤ
  loss_trades : Option ℤ
deriving DecidableEq

/-- The field-extraction part of `scrape` (src/scraper.py lines 112-175),
over an already-fetched and parsed page; `now` stands for `int(time.time())`.

The lines `weeks = _num((by_label("Weeks:") or {}).get_text())` (line 134) and
the five `(stats_label(...) or {}).get_text()` lines (157-161) call
`.get_text()` on the plain dict `{}` whenever the label is absent, and a
Python dict has no `get_text` method, so they raise `AttributeError`; the
embedding returns `Except.error "AttributeError"` there. The other fields
(lines 133, 136-156) are guarded by `if by_label(...) else None` and degrade
to `None`. `if val:` / `if lt_val:` treat an empty string as false. -/
def scrape (doc : Doc) (now : ℤ) : Except String Snapshot := do
  let name := doc.title
  let growth := _num (doc.listInfo "Growth:")
  let weeksRaw ← match doc.listInfo "Weeks:" with
    | some t => pure (_num (some t))
    | none => throw "AttributeError"
  let start_year : Option ℤ :=
    match doc.listInfo "Started:" with
    | some v => if v.isEmpty then none
                else (reSearchYear v.toList).map (fun n => (n : ℤ))
    | none => none
  let latest_trade : Option ℤ :=
    match doc.listInfo "Latest trade:" with
    | some v => if v.isEmpty then none else normalizeDuration v
    | none => none
  let drawdown ← match doc.dataCols "By Balance:" with
    | some t => pure (_num (some t))
    | none => throw "AttributeError"
  let monthly ← match doc.dataCols "Monthly growth:" with
    | some t => pure (_num (some t))
    | none => throw "AttributeError"
  let trades ← match doc.dataCols "Trades:" with
    | some t => pure (_num (some t))
    | none => throw "AttributeError"
  let profit_trades ← match doc.dataCols "Profit Trades:" with
    | some t => pure (_num (some t))
    | none => throw "AttributeError"
  let loss_trades ← match doc.dataCols "Loss Trades:" with
    | some t => pure (_num (some t))
    | none => throw "AttributeError"
  return { ts := now, name := name, growth := growth,
           weeks := weeksRaw.map pyInt,
           drawdown := drawdown, monthly_growth := monthly,
           start_year := start_year, latest_trade := latest_trade,
           trades := trades.map pyInt,
           profit_trades := profit_trades.map pyInt,
           loss_trades := loss_trades.map pyInt }

/-! ## History store (src/db.py lines 179-254)

The `signal_history` table with `PRIMARY KEY(sig_id, ts)` is a `List Row`;
`INSERT OR IGNORE` appends unless a row with the same key exists, and the
`SELECT ... ORDER BY ts DESC LIMIT 1` queries select the filtered row of
maximal `ts`. -/

/-- One row of `signal_history`: the key column `sig_id` plus the snapshot
columns (the `SELECT` lists of the history queries return exactly the
`Snapshot` fields, without `sig_id`). -/
structure Row where
  sig_id : String
  snap : Snapshot
deriving DecidableEq

/-- Whether a row with primary key `(sig, ts)` exists. -/
def hasKey (s : List Row) (sig : String) (ts : ℤ) : Bool :=
  s.any (fun r => r.sig_id == sig && r.snap.ts == ts)

/-- How many rows carry primary key `(sig, ts)`. -/
def countKey (s : List Row) (sig : String) (ts : ℤ) : Nat :=
  (s.filter (fun r => r.sig_id == sig && r.snap.ts == ts)).length

/-- `add_history` (src/db.py lines 179-193): `INSERT OR IGNORE` keyed by
`(sig_id, ts)`. The Python function body has no `return` statement, so every
call returns `None`: the second component is that return value, modelled as
`Option Bool` (the type a written-or-not flag would have) that is always
`none`. -/
def add_history (s : List Row) (sig : String) (data : Snapshot) :
    List Row × Option Bool :=
  (if hasKey s sig data.ts then s else s ++ [⟨sig, data⟩], none)

/-- `ORDER BY ts DESC LIMIT 1` over an already-filtered row list: the first
row of maximal `ts` (unique whenever the filter keeps one `sig_id`, by the
primary key). -/
def maxTsRow (rows : List Row) : Option Row :=
  rows.foldl
    (fun acc r =>
      match acc with
      | none => some r
      | some a => if a.snap.ts < r.snap.ts then some r else acc)
    none

/-- `latest_history` (src/db.py lines 195-208): the row of maximal `ts` for
`sig`, or `None`. -/
def latest_history (s : List Row) (sig : String) : Option Snapshot :=
  (maxTsRow (s.filter (fun r => r.sig_id == sig))).map Row.snap

/-- `history_at` (src/db.py lines 210-224): the row of maximal `ts` among
those with `ts <= t`, or `None`. -/
def history_at (s : List Row) (sig : String) (t : ℤ) : Option Snapshot :=
  (maxTsRow (s.filter (fun r => r.sig_id == sig && decide (r.snap.ts ≤ t)))).map Row.snap

/-- `previous_history` (src/db.py lines 226-239): the row of maximal `ts`
among those with `ts < before_ts`, or `None`. -/
def previous_history (s : List Row) (sig : String) (before_ts : ℤ) : Option Snapshot :=
  (maxTsRow (s.filter (fun r => r.sig_id == sig && decide (r.snap.ts < before_ts)))).map Row.snap

/-- `(v - pv) if (v is not None and pv is not None) else None`
(src/db.py line 253). -/
def subOpt (a b : Option ℚ) : Option ℚ :=
  match a, b with
  | some x, some y => some (x - y)
  | _, _ => none

/-- View an optional SQLite INTEGER value as an optional rational, so that the
uniform subtraction of src/db.py line 253 applies to INTEGER and REAL columns
alike. -/
def intOpt (a : Option ℤ) : Option ℚ :=
  a.map (fun z => (z : ℚ))

/-- The loop of src/db.py lines 248-253: one entry per key of `latest.items()`
in dictionary (insertion) order — `ts, name, drawdown, monthly_growth, weeks,
growth, trades, profit_trades, loss_trades, start_year, latest_trade` — with
`ts`, `name` and `latest_trade` skipped by the `continue` on line 250-251. -/
def diffItems (latest prev : Snapshot) : List (String × Option ℚ) :=
  [("drawdown", subOpt latest.drawdown prev.drawdown),
   ("monthly_growth", subOpt latest.monthly_growth prev.monthly_growth),
   ("weeks", subOpt (intOpt latest.weeks) (intOpt prev.weeks)),
   ("growth", subOpt latest.growth prev.growth),
   ("trades", subOpt (intOpt latest.trades) (intOpt prev.trades)),
   ("profit_trades", subOpt (intOpt latest.profit_trades) (intOpt prev.profit_trades)),
   ("loss_trades", subOpt (intOpt latest.loss_trades) (intOpt prev.loss_trades)),
   ("start_year", subOpt (intOpt latest.start_year) (intOpt prev.start_year))]

/-- The dictionary `history_diff` returns (src/db.py line 254). `diff` is
`none` exactly when the Python `diff` variable is still `None` (no previous
snapshot). -/
structure Diff where
  latest : Snapshot
  previous : Option Snapshot
  diff : Option (List (String × Option ℚ))
deriving DecidableEq

/-- `history_diff` (src/db.py lines 241-254). `if not latest` is equivalent to
a `None` test because the row dictionaries are never empty; likewise
`if prev:`. -/
def history_diff (s : List Row) (sig : String) : Option Diff :=
  match latest_history s sig with
  | none => none
  | some latest =>
    let prev := previous_history s sig latest.ts
    some { latest := latest, previous := prev,
           diff := prev.map (fun p => diffItems latest p) }

/-! ## Collection sweep: `scrape_all` (src/main.py lines 110-144) -/

/-- The part of a `signals`-table row that `scrape_all` reads: `r["id"]` and
`r["url"]`. -/
structure SigRow where
  id : String
  url : String
deriving DecidableEq

/-- One full row of the `signals` table (src/db.py lines 10-18). -/
structure SigInfo where
  id : String
  url : String
  name : Option String
  weeks : Option ℤ
  latest_trade : Option ℤ
  start_year : Option ℤ
  auto : Bool
deriving DecidableEq

/-- `update_signal_info` (src/db.py lines 161-176): update, on the row with
the given id, every column among `name, weeks, latest_trade, start_year,
auto` whose supplied value is not `None` (an absent keyword argument behaves
like `None`). -/
def update_signal_info (sigs : List SigInfo) (sig : String) (name : Option String)
    (weeks latest_trade start_year : Option ℤ) (auto : Option Bool) : List SigInfo :=
  sigs.map (fun s =>
    if s.id == sig then
      { s with
        name := if name.isSome then name else s.name,
        weeks := if weeks.isSome then weeks else s.weeks,
        latest_trade := if latest_trade.isSome then latest_trade else s.latest_trade,
        start_year := if start_year.isSome then start_year else s.start_year,
        auto := match auto with | some b => b | none => s.auto }
    else s)

/-- The mutable state one sweep of `scrape_all` touches: the history table,
the signals table, the log records of `logger.exception` (line 142), and the
notification messages handed to `APP.bot.send_message` (line 138) — recorded
structurally as (user id, entity id, change list) instead of the formatted
`f"{k}: {dv:+}"` text, since only presence and content of a notification
matter here; a per-user delivery failure is swallowed by the inner
`try/except` (lines 137-140) after the attempt, so attempts are what is
recorded. -/
structure SweepState where
  store : List Row
  signals : List SigInfo
  logs : List String
  notes : List (ℤ × String × List (String × ℚ))
deriving DecidableEq

/-- One step of the comprehension of src/main.py lines 126-129: keep
`(k, dv)` when `dv` is truthy — `if dv:` skips both `None` and a zero
delta. -/
def changeEntry (kv : String × Option ℚ) : Option (String × ℚ) :=
  match kv.2 with
  | some q => if q = 0 then none else some (kv.1, q)
  | none => none

/-- The comprehension of src/main.py lines 126-129 over the diff
dictionary's items. -/
def changesOf (d : List (String × Option ℚ)) : List (String × ℚ) :=
  d.filterMap changeEntry

/-- The loop body of `scrape_all` (src/main.py lines 113-142) for one tracked
entity. `oracle url` stands for `await scraper.scrape(r["url"], session=sess)`:
either the snapshot dictionary, or the exception it raises (network timeout,
non-2xx status, or the extraction `AttributeError` of `scrape`). The
`try/except` of lines 114-142 catches any such exception, logs it
(`logger.exception("scrape %s failed: %s", ...)`) and moves on; in the
embedding every other step of the body is total, so the `error` branch is
exactly the `except` branch. `if info and info.get("diff"):` (line 125) tests
Python truthiness: `info` is a non-empty dict whenever not `None`, and the
diff dict is truthy when not `None` and non-empty. -/
def processOne (oracle : String → Except String Snapshot) (uids : List ℤ)
    (st : SweepState) (r : SigRow) : SweepState :=
  match oracle r.url with
  | Except.error e =>
      { st with logs := st.logs ++ ["scrape " ++ r.id ++ " failed: " ++ e] }
  | Except.ok data =>
      let store1 := (add_history st.store r.id data).1
      let sigs1 := update_signal_info st.signals r.id data.name data.weeks
        data.latest_trade data.start_year none
      let base : SweepState := { st with store := store1, signals := sigs1 }
      match history_diff store1 r.id with
      | none => base
      | some inf =>
        match inf.diff with
        | none => base
        | some d =>
          if d.isEmpty then base
          else
            let changes := changesOf d
            if changes.isEmpty then base
            else { base with notes := base.notes ++ uids.map (fun u => (u, r.id, changes)) }

/-- One sweep of `scrape_all` (src/main.py lines 110-144): the loop body over
the listed signals in order. `rows` is `await db.list_signals()` and `uids`
is `await db.list_user_ids()` (the users table does not change during the
sweep). The jittered `asyncio.sleep` between entities (lines 143-144) touches
no modelled state. -/
def scrape_all (oracle : String → Except String Snapshot) (uids : List ℤ)
    (rows : List SigRow) (st : SweepState) : SweepState :=
  rows.foldl (processOne oracle uids) st

/-! ### Concrete fixtures for witnesses and counterexamples -/

/-- A concrete snapshot captured at time 1. -/
def snap1 : Snapshot :=
  { ts := 1, name := some "Alpha", growth := some 10, weeks := some 12,
    drawdown := some 3, monthly_growth := some 2, start_year := some 2020,
    latest_trade := some 30, trades := some 100, profit_trades := some 60,
    loss_trades := some 40 }

/-- A later snapshot of the same entity: `growth` moved from `10.0` to `12.5`
(and the latest-trade recency changed). -/
def snap2 : Snapshot :=
  { snap1 with ts := 2, growth := some (25 / 2), latest_trade := some 5 }

/-- A later snapshot that differs from `snap1` only in `ts`, `name` and
`latest_trade` — every field the diff covers is unchanged. -/
def snapLT : Snapshot :=
  { snap1 with ts := 2, name := some "Beta", latest_trade := some 5 }

/-- A one-snapshot history table. -/
def st1 : List Row := [⟨"e", snap1⟩]

/-- A two-snapshot history table for entity `"e"`. -/
def st2 : List Row := [⟨"e", snap1⟩, ⟨"e", snap2⟩]

/-- The spec-side view of the eight diffable fields of a snapshot, keyed by
column name, as optional rationals (INTEGER columns cast via `intOpt`). -/
def fieldVal (snap : Snapshot) : String → Option ℚ
  | "drawdown" => snap.drawdown
  | "monthly_growth" => snap.monthly_growth
  | "weeks" => intOpt snap.weeks
  | "growth" => snap.growth
  | "trades" => intOpt snap.trades
  | "profit_trades" => intOpt snap.profit_trades
  | "loss_trades" => intOpt snap.loss_trades
  | "start_year" => intOpt snap.start_year
  | _ => none

/-- Two snapshots that agree on every field the diff covers (they may differ
in `ts`, `name` and `latest_trade`). -/
def agree8 (a b : Snapshot) : Prop :=
  a.drawdown = b.drawdown ∧ a.monthly_growth = b.monthly_growth ∧
  a.weeks = b.weeks ∧ a.growth = b.growth ∧ a.trades = b.trades ∧
  a.profit_trades = b.profit_trades ∧ a.loss_trades = b.loss_trades ∧
  a.start_year = b.start_year

/-- A parsed page with no labelled regions at all (every label lookup fails,
as on a page whose list-info and data-columns regions are absent). -/
def emptyDoc : Doc :=
  { title := none, listInfo := fun _ => none, dataCols := fun _ => none }

/-- A parsed page where every label is present but no value text is
parseable. -/
def junkDoc : Doc :=
  { title := some "T", listInfo := fun _ => some "n/a", dataCols := fun _ => some "n/a" }

/-- Three tracked entities for a sweep. -/
def rows3 : List SigRow := [⟨"e1", "u1"⟩, ⟨"e2", "u2"⟩, ⟨"e3", "u3"⟩]

/-- A fetch oracle for which the second entity's fetch times out and every
other fetch yields `snap1`. -/
def oracle3 : String → Except String Snapshot :=
  fun u => if u = "u2" then Except.error "TimeoutError" else Except.ok snap1

/-- An empty sweep state. -/
def state0 : SweepState := { store := [], signals := [], logs := [], notes := [] }

/-- A sweep state whose history already holds `snap1` for entity `"e"`. -/
def stateE : SweepState := { store := st1, signals := [], logs := [], notes := [] }

/-- An oracle returning, for every url, a snapshot that differs from `snap1`
only in `ts`, `name` and `latest_trade`. -/
def oracleLT : String → Except String Snapshot := fun _ => Except.ok snapLT

section

/- Batteries marks the arithmetic on `Rat` `@[irreducible]`, which blocks
`decide` (the kernel itself reduces these fine). -/
attribute [local semireducible] Rat.mul Rat.inv Rat.add Rat.sub

/-! ### Helper lemmas -/

theorem maxTsRow_go (a : Row) (l : List Row) :
    ∃ m, List.foldl (fun acc r =>
        match acc with
        | none => some r
        | some x => if x.snap.ts < r.snap.ts then some r else acc) (some a) l = some m ∧
      (m = a ∨ m ∈ l) ∧ a.snap.ts ≤ m.snap.ts ∧ ∀ x ∈ l, x.snap.ts ≤ m.snap.ts := by
  induction l generalizing a with
  | nil => exact ⟨a, rfl, Or.inl rfl, le_refl _, by simp⟩
  | cons b t ih =>
    rw [List.foldl_cons]
    show ∃ m, List.foldl _ (if a.snap.ts < b.snap.ts then some b else some a) t = some m ∧ _
    by_cases h : a.snap.ts < b.snap.ts
    · rw [if_pos h]
      obtain ⟨m, hm, hmem, hle, hall⟩ := ih b
      refine ⟨m, hm, ?_, le_of_lt (lt_of_lt_of_le h hle), ?_⟩
      · rcases hmem with rfl | hm2
        · simp
        · simp [hm2]
      · intro x hx
        rcases List.mem_cons.mp hx with rfl | hx'
        · exact hle
        · exact hall x hx'
    · rw [if_neg h]
      obtain ⟨m, hm, hmem, hle, hall⟩ := ih a
      refine ⟨m, hm, ?_, hle, ?_⟩
      · rcases hmem with rfl | hm2
        · simp
        · simp [hm2]
      · intro x hx
        rcases List.mem_cons.mp hx with rfl | hx'
        · exact le_trans (le_of_not_lt h) hle
        · exact hall x hx'

theorem maxTsRow_none_iff (l : List Row) : maxTsRow l = none ↔ l = [] := by
  cases l with
  | nil => simp [maxTsRow]
  | cons a t =>
    obtain ⟨m, hm, -, -, -⟩ := maxTsRow_go a t
    have : maxTsRow (a :: t) = some m := by
      unfold maxTsRow
      rw [List.foldl_cons]
      exact hm
    simp [this]

theorem maxTsRow_mem_max (l : List Row) (m : Row) (h : maxTsRow l = some m) :
    m ∈ l ∧ ∀ x ∈ l, x.snap.ts ≤ m.snap.ts := by
  cases l with
  | nil => simp [maxTsRow] at h
  | cons a t =>
    obtain ⟨m', hm', hmem, hle, hall⟩ := maxTsRow_go a t
    have heq : maxTsRow (a :: t) = some m' := by
      unfold maxTsRow
      rw [List.foldl_cons]
      exact hm'
    rw [heq] at h
    obtain rfl : m' = m := Option.some.inj h
    constructor
    · rcases hmem with rfl | hm2
      · simp
      · simp [hm2]
    · intro x hx
      rcases List.mem_cons.mp hx with rfl | hx'
      · exact hle
      · exact hall x hx'

theorem countKey_zero_iff (s : List Row) (sig : String) (ts : ℤ) :
    countKey s sig ts = 0 ↔ hasKey s sig ts = false := by
  simp only [countKey, hasKey, List.length_eq_zero, List.filter_eq_nil_iff,
    Bool.not_eq_true, ← Bool.not_eq_true, List.any_eq_true]
  push_neg
  simp

theorem hasKey_append_one (s : List Row) (x : Row) (sig : String) (ts : ℤ) :
    hasKey (s ++ [x]) sig ts = (hasKey s sig ts || (x.sig_id == sig && x.snap.ts == ts)) := by
  simp [hasKey, List.any_append]

/-- After `add_history`, the key is present. -/
theorem add_history_hasKey (s : List Row) (sig : String) (data : Snapshot) :
    hasKey (add_history s sig data).1 sig data.ts = true := by
  by_cases h : hasKey s sig data.ts
  · simp [add_history, h]
  · simp only [add_history, Bool.not_eq_true] at h ⊢
    rw [if_neg (by simp [h]), hasKey_append_one, h]
    simp

/-- `add_history` never removes a key. -/
theorem add_history_mono (s : List Row) (sig' : String) (d : Snapshot)
    (sig : String) (ts : ℤ) (h : hasKey s sig ts = true) :
    hasKey (add_history s sig' d).1 sig ts = true := by
  by_cases h' : hasKey s sig' d.ts
  · simpa [add_history, h']
  · rw [add_history, if_neg (by simp [h']), hasKey_append_one, h]
    rfl

theorem takeWhile_isDigit_nil (l : List Char) (h : ∀ c ∈ l, c.isDigit = false) :
    l.takeWhile Char.isDigit = [] := by
  cases l with
  | nil => rfl
  | cons a t => simp [List.takeWhile_cons, h a (by simp)]

theorem dropWhile_isDigit_id (l : List Char) (h : ∀ c ∈ l, c.isDigit = false) :
    l.dropWhile Char.isDigit = l := by
  cases l with
  | nil => rfl
  | cons a t => simp [List.dropWhile_cons, h a (by simp)]

theorem matchCore_none (l : List Char) (h : ∀ c ∈ l, c.isDigit = false) :
    matchCore l = none := by
  have ht : l.takeWhile Char.isDigit = [] := takeWhile_isDigit_nil l h
  have hd : l.dropWhile Char.isDigit = l := dropWhile_isDigit_id l h
  have ht2 : l.tail.takeWhile Char.isDigit = [] :=
    takeWhile_isDigit_nil l.tail (fun c hc => h c ((List.tail_sublist l).subset hc))
  simp [matchCore, ht, hd, ht2]

theorem matchAt_none (l : List Char) (h : ∀ c ∈ l, c.isDigit = false) :
    matchAt l = none := by
  cases l with
  | nil => rfl
  | cons c r =>
    have hr : ∀ x ∈ r, x.isDigit = false := fun x hx => h x (by simp [hx])
    by_cases hc : (decide (c = '-') || decide (c = '+')) = true
    · simp [matchAt, hc, matchCore_none r hr]
    · simp only [Bool.not_eq_true] at hc
      simp [matchAt, hc, matchCore_none (c :: r) h]

theorem reSearchNum_none (l : List Char) (h : ∀ c ∈ l, c.isDigit = false) :
    reSearchNum l = none := by
  induction l with
  | nil => rfl
  | cons c r ih =>
    have hr : ∀ x ∈ r, x.isDigit = false := fun x hx => h x (by simp [hx])
    simp [reSearchNum, matchAt_none (c :: r) h, ih hr]

theorem mem_of_mem_pyStrip (t : List Char) (c : Char) (hc : c ∈ pyStrip t) : c ∈ t := by
  unfold pyStrip at hc
  rw [List.mem_reverse] at hc
  replace hc := (List.dropWhile_sublist pyWs).subset hc
  rw [List.mem_reverse] at hc
  exact (List.dropWhile_sublist pyWs).subset hc

theorem num_none_of_digit_free (t : String) (h : ∀ c ∈ t.toList, c.isDigit = false) :
    _num (some t) = none := by
  have hs : ∀ c ∈ pyStrip t.toList, c.isDigit = false :=
    fun c hc => h c (mem_of_mem_pyStrip t.toList c hc)
  have hinner : ∀ c ∈ stripSeparators (((pyStrip t.toList).drop 1).dropLast),
      c.isDigit = false := by
    intro c hc
    unfold stripSeparators at hc
    replace hc := (List.filter_sublist _).subset hc
    replace hc := (List.dropLast_sublist _).subset hc
    exact hs c ((List.drop_sublist 1 _).subset hc)
  have houter : ∀ c ∈ stripSeparators (pyStrip t.toList), c.isDigit = false := by
    intro c hc
    unfold stripSeparators at hc
    exact hs c ((List.filter_sublist _).subset hc)
  simp only [_num]
  by_cases hb : (pyStrip t.toList).head? = some '(' ∧ (pyStrip t.toList).getLast? = some ')'
  · rw [if_pos hb]
    unfold extractNum
    rw [reSearchNum_none _ hinner]
    rfl
  · rw [if_neg hb]
    unfold extractNum
    rw [reSearchNum_none _ houter]
    rfl

theorem processOne_error (oracle : String → Except String Snapshot) (uids : List ℤ)
    (st : SweepState) (r : SigRow) (e : String) (h : oracle r.url = Except.error e) :
    processOne oracle uids st r =
      { st with logs := st.logs ++ ["scrape " ++ r.id ++ " failed: " ++ e] } := by
  unfold processOne
  rw [h]

theorem processOne_ok_store (oracle : String → Except String Snapshot) (uids : List ℤ)
    (st : SweepState) (r : SigRow) (data : Snapshot) (h : oracle r.url = Except.ok data) :
    (processOne oracle uids st r).store = (add_history st.store r.id data).1 := by
  unfold processOne
  rw [h]
  dsimp only
  split <;> try rfl
  split <;> try rfl
  split <;> try rfl
  split <;> rfl

theorem processOne_ok_logs (oracle : String → Except String Snapshot) (uids : List ℤ)
    (st : SweepState) (r : SigRow) (data : Snapshot) (h : oracle r.url = Except.ok data) :
    (processOne oracle uids st r).logs = st.logs := by
  unfold processOne
  rw [h]
  dsimp only
  split <;> try rfl
  split <;> try rfl
  split <;> try rfl
  split <;> rfl

theorem processOne_hasKey_mono (oracle : String → Except String Snapshot) (uids : List ℤ)
    (st : SweepState) (r : SigRow) (sig : String) (ts : ℤ)
    (h : hasKey st.store sig ts = true) :
    hasKey (processOne oracle uids st r).store sig ts = true := by
  cases ho : oracle r.url with
  | error e => rw [processOne_error oracle uids st r e ho]; exact h
  | ok data =>
    rw [processOne_ok_store oracle uids st r data ho]
    exact add_history_mono _ _ _ _ _ h

theorem processOne_logs_mono (oracle : String → Except String Snapshot) (uids : List ℤ)
    (st : SweepState) (r : SigRow) (x : String) (h : x ∈ st.logs) :
    x ∈ (processOne oracle uids st r).logs := by
  cases ho : oracle r.url with
  | error e =>
    rw [processOne_error oracle uids st r e ho]
    exact List.mem_append_left _ h
  | ok data =>
    rw [processOne_ok_logs oracle uids st r data ho]
    exact h

theorem scrape_all_hasKey_mono (oracle : String → Except String Snapshot) (uids : List ℤ)
    (rows : List SigRow) (st : SweepState) (sig : String) (ts : ℤ)
    (h : hasKey st.store sig ts = true) :
    hasKey (scrape_all oracle uids rows st).store sig ts = true := by
  induction rows generalizing st with
  | nil => exact h
  | cons b t ih => exact ih _ (processOne_hasKey_mono oracle uids st b sig ts h)

theorem scrape_all_logs_mono (oracle : String → Except String Snapshot) (uids : List ℤ)
    (rows : List SigRow) (st : SweepState) (x : String) (h : x ∈ st.logs) :
    x ∈ (scrape_all oracle uids rows st).logs := by
  induction rows generalizing st with
  | nil => exact h
  | cons b t ih => exact ih _ (processOne_logs_mono oracle uids st b x h)

/-- `INSERT OR IGNORE` at an existing key leaves the table unchanged. -/
theorem add_history_noop (s : List Row) (sig : String) (data : Snapshot)
    (h : hasKey s sig data.ts = true) : (add_history s sig data).1 = s := by
  simp [add_history, h]

theorem subOpt_self (x : Option ℚ) : subOpt x x = x.map (fun _ => (0 : ℚ)) := by
  cases x <;> simp [subOpt]

theorem changeEntry_subOpt_self (k : String) (x : Option ℚ) :
    changeEntry (k, subOpt x x) = none := by
  cases x <;> simp [changeEntry, subOpt]

theorem changesOf_agree8 (latest prev : Snapshot) (h : agree8 latest prev) :
    changesOf (diffItems latest prev) = [] := by
  obtain ⟨h1, h2, h3, h4, h5, h6, h7, h8⟩ := h
  simp only [changesOf, diffItems, h1, h2, h3, h4, h5, h6, h7, h8,
    List.filterMap_cons, changeEntry_subOpt_self, List.filterMap_nil]

/-! ## Claims -/

/-- C1 counterexample: the claim says the first `append` call returns `true`;
but `add_history` has no `return` statement, so the first call (here: on the
empty table) returns Python `None`, not `true`. -/
theorem C1_counterexample :
    (add_history [] "e" snap1).2 = none ∧ (add_history [] "e" snap1).2 ≠ some true :=
  ⟨rfl, by decide⟩

/-- C1 (amended): for every table state with no row at the key, appending two
snapshots with the same `(entityId, capturedAt)` key leaves exactly one stored
row for that key — the second append is a silent no-op (`INSERT OR IGNORE`),
not an error — but `add_history` returns `None` on both calls (it reports
nothing), not `true` then `false`. -/
theorem C1_add_history_idempotent (s : List Row) (sig : String) (data : Snapshot)
    (h : countKey s sig data.ts = 0) :
    countKey (add_history s sig data).1 sig data.ts = 1 ∧
    (add_history (add_history s sig data).1 sig data).1 = (add_history s sig data).1 ∧
    (add_history s sig data).2 = none ∧
    (add_history (add_history s sig data).1 sig data).2 = none := by
  have hk : hasKey s sig data.ts = false := (countKey_zero_iff s sig data.ts).mp h
  have h1 : (add_history s sig data).1 = s ++ [⟨sig, data⟩] := by
    simp [add_history, hk]
  refine ⟨?_, ?_, rfl, rfl⟩
  · rw [h1]
    unfold countKey at h ⊢
    rw [List.filter_append, List.length_append, h]
    simp
  · exact add_history_noop _ _ _ (add_history_hasKey s sig data)

/-- C1 witness: the amended claim at the empty table. -/
theorem C1_witness :
    countKey (add_history [] "e" snap1).1 "e" snap1.ts = 1 ∧
    (add_history (add_history [] "e" snap1).1 "e" snap1).1 = (add_history [] "e" snap1).1 ∧
    (add_history [] "e" snap1).2 = none ∧
    (add_history (add_history [] "e" snap1).1 "e" snap1).2 = none :=
  C1_add_history_idempotent [] "e" snap1 (by rfl)

/-- C3 counterexample: on a table holding exactly one snapshot for `"e"`,
`history_diff` returns a Diff whose `diff` field is Python `None`, not the
empty mapping the claim states. -/
theorem C3_counterexample :
    (history_diff st1 "e").map Diff.diff = some none ∧
    (history_diff st1 "e").map Diff.diff ≠ some (some []) := by
  constructor <;> decide

/-- C3 (amended): `history_diff` returns `None` exactly when no snapshot row
exists for the entity; with exactly one row it returns that snapshot as
`latest`, `previous = None`, and `diff = None` (a null delta, not an empty
mapping). -/
theorem C3_single_snapshot :
    (∀ (s : List Row) (sig : String),
        history_diff s sig = none ↔ s.filter (fun r => r.sig_id == sig) = []) ∧
    (∀ (s : List Row) (sig : String) (r : Row),
        s.filter (fun r => r.sig_id == sig) = [r] →
        history_diff s sig = some ⟨r.snap, none, none⟩) ∧
    history_diff st1 "e" = some ⟨snap1, none, none⟩ := by
  refine ⟨?_, ?_, by decide⟩
  · intro s sig
    have hl : history_diff s sig = none ↔ latest_history s sig = none := by
      unfold history_diff
      cases latest_history s sig <;> simp
    rw [hl]
    unfold latest_history
    rw [Option.map_eq_none']
    exact maxTsRow_none_iff _
  · intro s sig r hfil
    have hlat : latest_history s sig = some r.snap := by
      unfold latest_history
      rw [hfil]
      rfl
    have hprev : previous_history s sig r.snap.ts = none := by
      unfold previous_history
      have : s.filter (fun x => x.sig_id == sig && decide (x.snap.ts < r.snap.ts)) = [] := by
        rw [List.filter_eq_nil_iff]
        intro x hx hpx
        rw [Bool.and_eq_true, decide_eq_true_eq] at hpx
        have hmem : x ∈ s.filter (fun r => r.sig_id == sig) :=
          List.mem_filter.mpr ⟨hx, hpx.1⟩
        rw [hfil, List.mem_singleton] at hmem
        subst hmem
        exact lt_irrefl _ hpx.2
      rw [this]
      rfl
    unfold history_diff
    rw [hlat]
    dsimp only
    rw [hprev]
    rfl

/-- C4: when a previous snapshot exists, it is the stored snapshot with the
greatest `capturedAt` strictly below the latest one; every delta entry is the
subtraction of the corresponding field values when both are non-null and null
otherwise; and on a history where `growth` went from `10.0` at `t=1` to
`12.5` at `t=2` the delta at `"growth"` is `2.5`. -/
theorem C4_diff_semantics :
    (∀ (s : List Row) (sig : String) (d : Diff) (p : Snapshot),
        history_diff s sig = some d → d.previous = some p →
        (∃ r ∈ s, r.sig_id = sig ∧ r.snap = p) ∧ p.ts < d.latest.ts ∧
        (∀ r ∈ s, r.sig_id = sig → r.snap.ts < d.latest.ts → r.snap.ts ≤ p.ts)) ∧
    (∀ (latest prev : Snapshot) (f : String) (v : Option ℚ),
        (f, v) ∈ diffItems latest prev →
        v = subOpt (fieldVal latest f) (fieldVal prev f)) ∧
    (∀ a b : ℚ, subOpt (some a) (some b) = some (a - b)) ∧
    (∀ a : Option ℚ, subOpt a none = none ∧ subOpt none a = none) ∧
    (history_diff st2 "e" = some ⟨snap2, some snap1, diffItems snap2 snap1⟩ ∧
      (diffItems snap2 snap1).lookup "growth" = some (some (5 / 2))) := by
  refine ⟨?_, ?_, fun a b => rfl, fun a => ⟨by cases a <;> rfl, rfl⟩, by decide⟩
  · intro s sig d p hd hp
    unfold history_diff at hd
    cases hl : latest_history s sig with
    | none => rw [hl] at hd; cases hd
    | some latest =>
      rw [hl] at hd
      obtain rfl : (⟨latest, previous_history s sig latest.ts,
          (previous_history s sig latest.ts).map (fun p => diffItems latest p)⟩ : Diff) = d :=
        Option.some.inj hd
      dsimp only at hp ⊢
      unfold previous_history at hp
      rw [Option.map_eq_some'] at hp
      obtain ⟨a, ha, rfl⟩ := hp
      obtain ⟨hmem, hmax⟩ := maxTsRow_mem_max _ _ ha
      rw [List.mem_filter] at hmem
      obtain ⟨hmem, hpa⟩ := hmem
      rw [Bool.and_eq_true, beq_iff_eq, decide_eq_true_eq] at hpa
      refine ⟨⟨a, hmem, hpa.1, rfl⟩, hpa.2, ?_⟩
      intro r hr hrsig hrts
      exact hmax r (List.mem_filter.mpr ⟨hr, by
        rw [Bool.and_eq_true, beq_iff_eq, decide_eq_true_eq]
        exact ⟨hrsig, hrts⟩⟩)
  · intro latest prev f v hv
    simp only [diffItems, List.mem_cons, List.not_mem_nil, or_false, Prod.mk.injEq] at hv
    rcases hv with h | h | h | h | h | h | h | h <;> rw [h.1, h.2] <;> rfl

/-- C5 counterexample: the claim says an input whose parenthesized content
carries its own minus sign still normalizes to a negative value; but
`_num("(-45.2)")` evaluates to `+45.2`: `return -num if neg else num` negates
the already-negative extracted number instead of overriding its sign. -/
theorem C5_counterexample :
    _num (some "(-45.2)") = some ((226 / 5 : ℚ)) ∧ (0 : ℚ) < 226 / 5 := by
  constructor <;> decide

/-- C5 (amended): for every input string fully wrapped in parentheses, `_num`
strips the parentheses, remembers the negative sign, and NEGATES the number
extracted from the content (rather than overriding its sign): parenthesized
non-negative content normalizes to a negative value, but content carrying its
own minus sign normalizes back to a positive value. -/
theorem C5_paren_negates :
    (∀ t : String,
        (pyStrip t.toList).head? = some '(' →
        (pyStrip t.toList).getLast? = some ')' →
        _num (some t) =
          (extractNum (stripSeparators (((pyStrip t.toList).drop 1).dropLast))).map
            (fun q => -q)) ∧
    _num (some "(45.2)") = some (-(226 / 5) : ℚ) ∧
    _num (some "(-45.2)") = some ((226 / 5) : ℚ) := by
  refine ⟨?_, by decide, by decide⟩
  intro t h1 h2
  simp only [_num]
  rw [if_pos ⟨h1, h2⟩]

/-- C6: the documented examples of `normalizeNumber` hold, and the function is
total (the embedding returns a value for every input — the only fallible step,
`float()`, always succeeds on the matched shapes): `"(45.2)"` gives `-45.2`,
`"1,024"` gives `1024.0`, `""` and `"n/a"` and `None` give null, and every
input without a decimal-number substring (equivalently, with no digit
character, since any single digit already matches) gives null. -/
theorem C6_num_examples :
    _num (some "(45.2)") = some (-(226 / 5) : ℚ) ∧
    _num (some "1,024") = some (1024 : ℚ) ∧
    _num (some "") = none ∧
    _num (some "n/a") = none ∧
    _num none = none ∧
    (∀ t : String, (∀ c ∈ t.toList, c.isDigit = false) → _num (some t) = none) := by
  refine ⟨by decide, by decide, by decide, by decide, rfl, num_none_of_digit_free⟩

/-- C6 witness: the universally quantified clause of `C6_num_examples` at the
digit-free input `"xyz"`. -/
theorem C6_witness : _num (some "xyz") = none :=
  C6_num_examples.2.2.2.2.2 "xyz" (by decide)

/-- C7: duration normalization converts `<integer> <unit>` to whole minutes
with the fixed multipliers second = 1/60 (with truncation of the product),
minute = 1, hour = 60, day = 1440, week = 10080, month = 43200; `"2 hours"`
gives 120 and `"1 week"` gives 10080; an unknown unit or no match gives
null. -/
theorem C7_duration :
    (∀ (t : String) (n : ℕ) (u : String),
        reSearchDur t.toList = some (n, u) →
        normalizeDuration t = some (pyInt ((n : ℚ) * unitMult u))) ∧
    (∀ t : String, reSearchDur t.toList = none → normalizeDuration t = none) ∧
    (normalizeDuration "2 hours" = some 120 ∧
      normalizeDuration "1 week" = some 10080 ∧
      normalizeDuration "90 seconds" = some 1 ∧
      normalizeDuration "5 minutes" = some 5 ∧
      normalizeDuration "3 days" = some 4320 ∧
      normalizeDuration "2 months" = some 86400 ∧
      normalizeDuration "1 fortnight" = none ∧
      unitMult "second" = 1 / 60 ∧ unitMult "minute" = 1 ∧ unitMult "hour" = 60 ∧
      unitMult "day" = 1440 ∧ unitMult "week" = 10080 ∧ unitMult "month" = 43200) := by
  refine ⟨?_, ?_, by decide⟩
  · intro t n u h
    unfold normalizeDuration
    rw [h]
  · intro t h
    unfold normalizeDuration
    rw [h]

/-- C7 witness: the general multiplier clause of `C7_duration` at the concrete
input `"7 minutes"`, and the no-match clause at `"soon"`. -/
theorem C7_witness :
    normalizeDuration "7 minutes" = some (pyInt ((7 : ℚ) * unitMult "minute")) ∧
    normalizeDuration "soon" = none :=
  ⟨C7_duration.1 "7 minutes" 7 "minute" (by decide),
   C7_duration.2.1 "soon" (by decide)⟩

/-- C2: the claim says field extraction never raises and that a document
missing a whole labelled region yields a null-filled snapshot. In fact, on a
page with no list-info region, line 134 of src/scraper.py evaluates
`(by_label("Weeks:") or {}).get_text()` with `by_label` returning `None`, so
`.get_text()` is called on the plain dict `{}` and raises `AttributeError`
(the data-columns lookups at lines 157-161 have the same flaw); only when
every label is present does an unparseable value degrade to null. -/
theorem C2_missing_region_raises :
    scrape emptyDoc 0 = Except.error "AttributeError" ∧
    scrape junkDoc 5 = Except.ok
      { ts := 5, name := some "T", growth := none, weeks := none, drawdown := none,
        monthly_growth := none, start_year := none, latest_trade := none,
        trades := none, profit_trades := none, loss_trades := none } := by
  constructor <;> rfl

/-- C8: `history_at` returns `None` exactly when no stored snapshot of the
entity has `capturedAt <= t`; otherwise it returns a stored snapshot of the
entity with `capturedAt <= t` that dominates every such snapshot; and on a
two-snapshot store with a query time strictly between the two timestamps it
returns the earlier snapshot. -/
theorem C8_history_at :
    (∀ (s : List Row) (sig : String) (t : ℤ),
        history_at s sig t = none ↔ ∀ r ∈ s, r.sig_id = sig → t < r.snap.ts) ∧
    (∀ (s : List Row) (sig : String) (t : ℤ) (snap : Snapshot),
        history_at s sig t = some snap →
        (∃ r ∈ s, r.sig_id = sig ∧ r.snap = snap ∧ snap.ts ≤ t) ∧
        (∀ r ∈ s, r.sig_id = sig → r.snap.ts ≤ t → r.snap.ts ≤ snap.ts)) ∧
    (∀ (r1 r2 : Row) (t : ℤ),
        r1.sig_id = r2.sig_id → r1.snap.ts ≤ t → t < r2.snap.ts →
        history_at [r1, r2] r1.sig_id t = some r1.snap) := by
  refine ⟨?_, ?_, ?_⟩
  · intro s sig t
    unfold history_at
    rw [Option.map_eq_none', maxTsRow_none_iff, List.filter_eq_nil_iff]
    constructor
    · intro h r hr hsig
      have := h r hr
      rw [Bool.and_eq_true, beq_iff_eq, decide_eq_true_eq, not_and] at this
      exact lt_of_not_le (this hsig)
    · intro h r hr
      rw [Bool.and_eq_true, beq_iff_eq, decide_eq_true_eq, not_and]
      intro hsig
      exact not_le_of_lt (h r hr hsig)
  · intro s sig t snap h
    unfold history_at at h
    rw [Option.map_eq_some'] at h
    obtain ⟨a, ha, rfl⟩ := h
    obtain ⟨hmem, hmax⟩ := maxTsRow_mem_max _ _ ha
    rw [List.mem_filter] at hmem
    obtain ⟨hmem, hpa⟩ := hmem
    rw [Bool.and_eq_true, beq_iff_eq, decide_eq_true_eq] at hpa
    refine ⟨⟨a, hmem, hpa.1, rfl, hpa.2⟩, ?_⟩
    intro r hr hrsig hrts
    exact hmax r (List.mem_filter.mpr ⟨hr, by
      rw [Bool.and_eq_true, beq_iff_eq, decide_eq_true_eq]
      exact ⟨hrsig, hrts⟩⟩)
  · intro r1 r2 t h1 h2 h3
    have e1 : decide (r1.snap.ts ≤ t) = true := decide_eq_true h2
    have e2 : decide (r2.snap.ts ≤ t) = false := decide_eq_false (not_le_of_lt h3)
    unfold history_at
    rw [show List.filter (fun r => r.sig_id == r1.sig_id && decide (r.snap.ts ≤ t))
          [r1, r2] = [r1] by simp [List.filter, e1, e2, ← h1]]
    rfl

/-- C8 instantiated at the two-snapshot store `st2` (timestamps 1 and 2):
querying at a time at or after the earlier timestamp and strictly before the
later one returns the earlier snapshot. -/
theorem C8_witness : history_at st2 "e" 1 = some snap1 :=
  C8_history_at.2.2 ⟨"e", snap1⟩ ⟨"e", snap2⟩ 1 rfl (by decide) (by decide)

/-- C9: during one sweep, an exception raised while processing one entity is
caught (the sweep function is total and its only failure-handling branch is
the logged one), so every entity whose fetch succeeds still gets its snapshot
appended and every entity whose fetch fails gets a log record — in particular,
over three entities where the second entity's fetch times out, snapshots are
appended for entities one and three and a failure is logged for entity two. -/
theorem C9_sweep_isolation :
    (∀ (oracle : String → Except String Snapshot) (uids : List ℤ) (rows : List SigRow)
        (st : SweepState) (r : SigRow) (data : Snapshot),
        r ∈ rows → oracle r.url = Except.ok data →
        hasKey (scrape_all oracle uids rows st).store r.id data.ts = true) ∧
    (∀ (oracle : String → Except String Snapshot) (uids : List ℤ) (rows : List SigRow)
        (st : SweepState) (r : SigRow) (e : String),
        r ∈ rows → oracle r.url = Except.error e →
        ("scrape " ++ r.id ++ " failed: " ++ e) ∈ (scrape_all oracle uids rows st).logs) ∧
    (hasKey (scrape_all oracle3 [] rows3 state0).store "e1" 1 = true ∧
     hasKey (scrape_all oracle3 [] rows3 state0).store "e3" 1 = true ∧
     hasKey (scrape_all oracle3 [] rows3 state0).store "e2" 1 = false ∧
     "scrape e2 failed: TimeoutError" ∈ (scrape_all oracle3 [] rows3 state0).logs) := by
  refine ⟨?_, ?_, by decide⟩
  · intro oracle uids rows st r data hr ho
    induction rows generalizing st with
    | nil => cases hr
    | cons b t ih =>
      have hstep : scrape_all oracle uids (b :: t) st =
          scrape_all oracle uids t (processOne oracle uids st b) := rfl
      rw [hstep]
      rcases List.mem_cons.mp hr with rfl | hr'
      · refine scrape_all_hasKey_mono oracle uids t _ r.id data.ts ?_
        rw [processOne_ok_store oracle uids st r data ho]
        exact add_history_hasKey _ _ _
      · exact ih _ hr' 
  · intro oracle uids rows st r e hr ho
    induction rows generalizing st with
    | nil => cases hr
    | cons b t ih =>
      have hstep : scrape_all oracle uids (b :: t) st =
          scrape_all oracle uids t (processOne oracle uids st b) := rfl
      rw [hstep]
      rcases List.mem_cons.mp hr with rfl | hr'
      · refine scrape_all_logs_mono oracle uids t _ _ ?_
        rw [processOne_error oracle uids st r e ho]
        exact List.mem_append_right _ (by simp)
      · exact ih _ hr' 

/-- C10: the delta mapping excludes `latest_trade` in addition to `ts` and
`name` — its keys are exactly the eight listed fields, in dictionary order —
so two consecutive snapshots that agree on those eight fields (differing only
in latest-trade recency, name or timestamp) produce no change entry, and the
sweep sends no change notification for that entity. -/
theorem C10_latest_trade_excluded :
    (∀ latest prev : Snapshot, (diffItems latest prev).map Prod.fst =
        ["drawdown", "monthly_growth", "weeks", "growth", "trades",
         "profit_trades", "loss_trades", "start_year"]) ∧
    (∀ latest prev : Snapshot, agree8 latest prev →
        changesOf (diffItems latest prev) = []) ∧
    (∀ (oracle : String → Except String Snapshot) (uids : List ℤ) (st : SweepState)
        (r : SigRow) (data latest prev : Snapshot),
        oracle r.url = Except.ok data →
        history_diff (add_history st.store r.id data).1 r.id =
          some ⟨latest, some prev, some (diffItems latest prev)⟩ →
        agree8 latest prev →
        (processOne oracle uids st r).notes = st.notes) ∧
    ((processOne oracleLT [7] stateE ⟨"e", "u"⟩).notes = [] ∧
      history_diff (add_history stateE.store "e" snapLT).1 "e" =
        some ⟨snapLT, some snap1, diffItems snapLT snap1⟩) := by
  refine ⟨fun latest prev => rfl, changesOf_agree8, ?_, by decide⟩
  intro oracle uids st r data latest prev ho hdiff hagree
  unfold processOne
  rw [ho]
  dsimp only
  rw [hdiff]
  dsimp only
  rw [show (diffItems latest prev).isEmpty = false from rfl]
  rw [changesOf_agree8 latest prev hagree]
  rfl

/-- C10 witness: the notification clause of `C10_latest_trade_excluded` at the
concrete state `stateE` and oracle `oracleLT` (new snapshot differing from the
stored one only in `ts`, `name`, `latest_trade`): the sweep's note list stays
empty. -/
theorem C10_witness : (processOne oracleLT [7] stateE ⟨"e", "u"⟩).notes = stateE.notes :=
  C10_latest_trade_excluded.2.2.1 oracleLT [7] stateE ⟨"e", "u"⟩ snapLT snapLT snap1
    rfl (by decide) ⟨rfl, rfl, rfl, rfl, rfl, rfl, rfl, rfl⟩

end
